import Mathlib

set_option maxRecDepth 16384

/-!
Verification of the ClaraVerse service-orchestration core against its
specification.  The Lean definitions below are shallow embeddings of:

* `src/electron/claraCoreRemoteService.cjs` — the SSH remote deployment
  engine (`testSetup`, `detectHardware`, `deploy`, `monitorRemoteServices`,
  command helpers);
* the Docker container lifecycle manager (`ClaraCoreDockerService`:
  `detectGPU`, `containerExists`, `start`, `getStatus`);
* the service registry (`SERVICE_DEFINITIONS`,
  `validateServiceConfiguration`, `isServiceModeSupported`,
  `getSupportedDeploymentModes`).

JavaScript-specific behaviour is modelled explicitly: string truthiness
(`""` is falsy), `String.prototype.includes` as substring search,
`replace` with a plain-string pattern replacing only the first
occurrence, and `||` defaulting.  Asynchronous control flow is modelled
by an event parameter describing which of the racing outcomes (ready /
error / timeout) happens first, and remote command execution by a total
map from command strings to an exit code plus stdout/stderr.  Wall-clock
sleeps and log output have no observable effect and are dropped.
-/

/-!
String helpers.  JavaScript strings are sequences of code units and its
string methods are plain sequence operations, so they are modelled as
structurally recursive functions over `String.data` (the core library's
own `trim`/`splitOn`/`replace` walk byte positions by well-founded
recursion, which the kernel cannot evaluate).  The scanning helpers
carry a fuel argument for structural termination; every caller passes
`length + 1`, which is an upper bound on the number of scan steps since
each step consumes at least one character of a non-empty pattern. -/

/-- Does `pat` occur as a contiguous run inside `l`? -/
def infixAux (pat : List Char) : List Char → Bool
  | [] => pat.isEmpty
  | c :: cs => pat.isPrefixOf (c :: cs) || infixAux pat cs

/-- JavaScript `a.includes(b)` : substring containment test. -/
def strIncludes (s pat : String) : Bool :=
  infixAux pat.data s.data

/-- JavaScript truthiness of a string: `""` is falsy, all else truthy. -/
def jsTruthy (s : String) : Bool := s != ""

/-- JavaScript truthiness of a possibly-absent string field
(`undefined` and `""` are falsy). -/
def jsTruthyOpt : Option String → Bool
  | none => false
  | some s => jsTruthy s

/-- JavaScript `s.trim()`. -/
def jsTrim (s : String) : String :=
  ⟨((s.data.dropWhile Char.isWhitespace).reverse.dropWhile Char.isWhitespace).reverse⟩

/-- JavaScript `s.toLowerCase()`. -/
def jsToLower (s : String) : String := ⟨s.data.map Char.toLower⟩

/-- JavaScript `s.toUpperCase()`. -/
def jsToUpper (s : String) : String := ⟨s.data.map Char.toUpper⟩

/-- JavaScript `s.substring(0, n)`. -/
def jsTake (s : String) (n : Nat) : String := ⟨s.data.take n⟩

/-- JavaScript `s.slice(n)`. -/
def jsDrop (s : String) (n : Nat) : String := ⟨s.data.drop n⟩

/-- Leading-segment removal (used for the `\s+` of an anchored regex). -/
def jsDropWhile (s : String) (p : Char → Bool) : String := ⟨s.data.dropWhile p⟩

/-- JavaScript `s.startsWith(pre)`. -/
def jsStartsWith (s pre : String) : Bool := pre.data.isPrefixOf s.data

/-- Scanner for `split`: cut at each non-overlapping occurrence of
`sep`. -/
def splitAux (sep : List Char) : Nat → List Char → List Char → List (List Char)
  | 0, rest, acc => [acc.reverse ++ rest]
  | _ + 1, [], acc => [acc.reverse]
  | fuel + 1, c :: cs, acc =>
    if sep.isPrefixOf (c :: cs) then
      acc.reverse :: splitAux sep fuel (List.drop sep.length (c :: cs)) []
    else
      splitAux sep fuel cs (c :: acc)

/-- JavaScript `s.split(sep)` for a non-empty plain-string separator. -/
def jsSplitOn (s sep : String) : List String :=
  if sep.data.isEmpty then [s]
  else (splitAux sep.data (s.data.length + 1) s.data []).map (fun cl => ⟨cl⟩)

/-- Scanner for `replace(/pat/g, rep)`: rewrite every non-overlapping
occurrence, resuming after the replacement. -/
def replaceAux (pat rep : List Char) : Nat → List Char → List Char
  | 0, l => l
  | _ + 1, [] => []
  | fuel + 1, c :: cs =>
    if pat.isPrefixOf (c :: cs) then
      rep ++ replaceAux pat rep fuel (List.drop pat.length (c :: cs))
    else
      c :: replaceAux pat rep fuel cs

/-- JavaScript `s.replace(/pat/g, rep)` (global replacement). -/
def jsReplaceAll (s pat rep : String) : String :=
  if pat.data.isEmpty then s
  else ⟨replaceAux pat.data rep.data (s.data.length + 1) s.data⟩

/-- Join pieces back with the separator between them. -/
def joinWith (sep : String) : List String → String
  | [] => ""
  | [x] => x
  | x :: xs => x ++ sep ++ joinWith sep xs

/-- JavaScript `s.replace(pat, "")` with a plain-string pattern:
removes only the first occurrence of `pat` from `s`. -/
def removeFirstOcc (s pat : String) : String :=
  match jsSplitOn s pat with
  | [] => s
  | [_] => s
  | p :: ps => p ++ joinWith pat ps

/-! ## Service registry (service definitions file)

`ServiceDef` carries the fields of a `SERVICE_DEFINITIONS` entry that the
registry functions read.  Launch specs, health-check closures and custom
start/stop closures are I/O glue not consulted by the functions under
verification and are omitted.  `platformSupport` is either mode-keyed
(an object mapping a deployment mode to its platform list — the form all
current services use) or a plain platform list (the backward-compatible
array form the code also accepts). -/

inductive PlatformSupport where
  | byMode (m : List (String × List String))
  | general (ps : List String)
deriving DecidableEq

structure ServiceDef where
  name : String
  type : String
  critical : Bool
  priority : Nat
  dependencies : List String
  deploymentModes : Option (List String) := none
  platformSupport : Option PlatformSupport := none
deriving DecidableEq

/-- The static `SERVICE_DEFINITIONS` catalog (registry file lines 24-440),
restricted to the fields the registry functions read. -/
def SERVICE_DEFINITIONS : List (String × ServiceDef) :=
  [ ("docker",
     { name := "Docker Engine", type := "docker-daemon", critical := true,
       priority := 1, dependencies := [] }),
    ("python-backend",
     { name := "Python Backend Service", type := "docker-container", critical := true,
       priority := 2, dependencies := ["docker"],
       deploymentModes := some ["docker", "manual", "remote"],
       platformSupport := some (.byMode
         [ ("docker", ["win32", "darwin", "linux"]),
           ("manual", ["win32", "darwin", "linux"]),
           ("remote", ["win32", "darwin", "linux"]) ]) }),
    ("claracore",
     { name := "Clara Core AI Engine", type := "binary", critical := true,
       priority := 3, dependencies := ["docker"],
       deploymentModes := some ["local", "remote", "docker"],
       platformSupport := some (.byMode
         [ ("local", ["win32", "darwin", "linux"]),
           ("remote", ["win32", "darwin", "linux"]),
           ("docker", ["win32", "linux"]) ]) }),
    ("comfyui",
     { name := "ComfyUI Image Generation", type := "docker-container", critical := false,
       priority := 4, dependencies := ["docker", "python-backend"],
       deploymentModes := some ["docker", "manual", "remote"],
       platformSupport := some (.byMode
         [ ("docker", ["win32"]),
           ("manual", ["win32", "darwin", "linux"]),
           ("remote", ["win32", "darwin", "linux"]) ]) }),
    ("n8n",
     { name := "N8N Workflow Engine", type := "docker-container", critical := false,
       priority := 5, dependencies := ["docker"],
       deploymentModes := some ["docker", "manual", "remote"],
       platformSupport := some (.byMode
         [ ("docker", ["win32", "darwin", "linux"]),
           ("manual", ["win32", "darwin", "linux"]),
           ("remote", ["win32", "darwin", "linux"]) ]) }),
    ("mcp",
     { name := "Model Context Protocol", type := "service", critical := false,
       priority := 6, dependencies := ["python-backend"] }),
    ("mcp-proxy",
     { name := "MCP HTTP Proxy", type := "http-service", critical := false,
       priority := 7, dependencies := ["mcp"] }) ]

/-- `isServiceModeSupported(serviceName, deploymentMode, targetPlatform)`
(registry file lines 578-602).  Unknown services and services without a
`deploymentModes` list default to docker-only; otherwise the mode must be
declared and, when a platform-support declaration exists, the target
platform must appear in it (a mode missing from a mode-keyed declaration
yields a falsy value, i.e. unsupported). -/
def isServiceModeSupported (serviceName deploymentMode targetPlatform : String) : Bool :=
  match SERVICE_DEFINITIONS.lookup serviceName with
  | none => deploymentMode == "docker"
  | some svc =>
    match svc.deploymentModes with
    | none => deploymentMode == "docker"
    | some modes =>
      if !(modes.contains deploymentMode) then false
      else
        match svc.platformSupport with
        | some (.byMode m) =>
          match m.lookup deploymentMode with
          | some supportedPlatforms => supportedPlatforms.contains targetPlatform
          | none => false
        | some (.general ps) => ps.contains targetPlatform
        | none => true

/-- `getSupportedDeploymentModes(serviceName, targetPlatform)`
(registry file lines 607-616). -/
def getSupportedDeploymentModes (serviceName targetPlatform : String) : List String :=
  match SERVICE_DEFINITIONS.lookup serviceName with
  | none => ["docker"]
  | some svc =>
    match svc.deploymentModes with
    | none => ["docker"]
    | some modes =>
      modes.filter (fun mode => isServiceModeSupported serviceName mode targetPlatform)

/-! ## Docker container lifecycle manager (`ClaraCoreDockerService`)

The manager drives a local Docker engine through dockerode.  `Engine`
summarises the observable behaviour of that engine for one run: whether
the daemon answers `ping`, whether `listContainers` succeeds, the
containers and images it reports, and whether `inspect` / `start` /
`createContainer` / `pull` succeed.  GPU probe outputs (`execSync`
results) are carried as `Option String` — `none` models the probe
command throwing.  Instance fields of the JS class (`this.gpuType`,
`this.detectedImage`, `this.isRunning`) are caches for logging and are
not part of the engine state; result fields sourced from them are
modelled from the values computed in the same call. -/

structure ContainerRec where
  names : List String
  running : Bool
  status : String
  startedAt : String
  image : String
  ports : List (String × String)
deriving DecidableEq

structure Engine where
  pingOk : Bool
  platform : String
  nvidiaSmi : Option String
  rocmSmi : Option String
  vulkanInfo : Option String
  listOk : Bool
  containers : List ContainerRec
  inspectOk : Bool
  startOk : Bool
  images : List String
  pullOk : Bool
  createOk : Bool
  healthyWithinWindow : Bool
deriving DecidableEq

/-- The fixed container name (`this.containerName = 'clara_core'`). -/
def containerName : String := "clara_core"

/-- One `execSync` probe inside a try/catch: `none` models the command
throwing (probe absent); otherwise the probe counts as a hit when its
output is truthy and satisfies the check from the source. -/
def probeHit (o : Option String) (check : String → Bool) : Bool :=
  match o with
  | some out => jsTruthy out && check out
  | none => false

/-- `detectGPU()` (lifecycle file lines 24-112): returns the detected GPU
type and the matching image tag.  On win32 only NVIDIA is probed; on
linux NVIDIA, then ROCm, then Vulkan; anything else (or every probe
failing) falls back to CPU. -/
def detectGPU (e : Engine) : String × String :=
  let cpu := ("cpu", "clara17verse/claracore:cpu")
  if e.platform == "win32" then
    if probeHit e.nvidiaSmi (fun s => jsTruthy (jsTrim s)) then
      ("cuda", "clara17verse/claracore:cuda")
    else cpu
  else if e.platform == "linux" then
    if probeHit e.nvidiaSmi (fun s => jsTruthy (jsTrim s)) then
      ("cuda", "clara17verse/claracore:cuda")
    else if probeHit e.rocmSmi (fun s => strIncludes s "GPU") then
      ("rocm", "clara17verse/claracore:rocm")
    else if probeHit e.vulkanInfo (fun s => strIncludes s "Vulkan") then
      ("vulkan", "clara17verse/claracore:vulkan")
    else cpu
  else cpu

/-- The dockerode `listContainers` match used by `containerExists`
(lifecycle file line 134): `c.Names.includes('/' + this.containerName)`. -/
def findContainer (e : Engine) : Option ContainerRec :=
  e.containers.find? (fun c => c.names.contains ("/" ++ containerName))

/-- `containerExists()` (lifecycle file lines 131-139): a `listContainers`
failure is caught and reported as `false`. -/
def containerExists (e : Engine) : Bool :=
  if !e.listOk then false
  else (findContainer e).isSome

/-- Mark the named container running (effect of `container.start()`). -/
def setRunning (e : Engine) : Engine :=
  { e with containers :=
      e.containers.map (fun c =>
        if c.names.contains ("/" ++ containerName) then { c with running := true } else c) }

structure StartRes where
  success : Bool
  message : String
  gpuType : Option String
  image : Option String
deriving DecidableEq

structure StartOpts where
  gpuType : Option String
deriving DecidableEq

/-- `start(options)` (lifecycle file lines 258-390).  Throws (`.error`)
on engine failures; the trailing catch rewrites port-conflict messages.
`killProcessOnPort8091` terminates host processes bound to the port and
has no effect on container state, so it is a no-op in this model;
`waitForHealthy` returns `false` on timeout without throwing, so its
outcome never changes the result. -/
def start (e : Engine) (options : StartOpts) : Except String (StartRes × Engine) :=
  let body : Except String (StartRes × Engine) :=
    if !e.pingOk then
      .error "Docker is not running. Please start Docker Desktop and try again."
    else
      let gpuType := match options.gpuType with
        | some g => g
        | none => (detectGPU e).1
      let detectedImage := match options.gpuType with
        | some g => "clara17verse/claracore:" ++ g
        | none => (detectGPU e).2
      if containerExists e then
        if !e.inspectOk then .error "inspect failed"
        else
          match findContainer e with
          | none => .error "no such container"
          | some c =>
            if c.running then
              .ok ({ success := true, message := "Container already running",
                     gpuType := some gpuType, image := none }, e)
            else if !e.startOk then .error "failed to start container"
            else
              .ok ({ success := true, message := "Container started",
                     gpuType := some gpuType, image := none }, setRunning e)
      else
        let imageExists := e.images.contains detectedImage
        let pulled : Except String Unit :=
          if !imageExists then
            if e.pullOk then .ok () else .error "image pull failed"
          else .ok ()
        match pulled with
        | .error msg => .error msg
        | .ok _ =>
          if !e.createOk then .error "failed to create container"
          else
            let created : ContainerRec :=
              { names := ["/" ++ containerName], running := false, status := "created",
                startedAt := "", image := detectedImage,
                ports := [("5890/tcp", "8091")] }
            let e₁ := { e with containers := e.containers ++ [created] }
            if !e.startOk then .error "failed to start container"
            else
              .ok ({ success := true, message := "ClaraCore started in Docker",
                     gpuType := some gpuType, image := some detectedImage }, setRunning e₁)
  match body with
  | .ok r => .ok r
  | .error msg =>
    if strIncludes msg "port" && strIncludes msg "8091" then
      .error ("Port 8091 is still in use. Please:\n1. Stop any running ClaraCore instances (Local mode)\n2. Check Task Manager for processes using port 8091\n3. Try restarting the application")
    else .error msg

structure StatusRec where
  existsFlag : Bool
  running : Bool
  status : Option String
  started : Option String
  image : Option String
  ports : Option (List (String × String))
  error : Option String
deriving DecidableEq

/-- `getStatus()` (lifecycle file lines 525-559).  Total: every failure
path is caught and returned as data.  The absent branch returns no error
field even when `listContainers` itself failed (that error is swallowed
inside `containerExists`); only a failure reaching `getStatus`'s own
catch (the `inspect` call) yields an error field.  The JS result also
echoes the `this.gpuType`/`this.detectedImage` caches, which are not
engine state and are not modelled. -/
def getStatus (e : Engine) : StatusRec :=
  if !(containerExists e) then
    { existsFlag := false, running := false, status := none, started := none,
      image := none, ports := none, error := none }
  else
    match (if e.inspectOk then findContainer e else none) with
    | none =>
      { existsFlag := false, running := false, status := none, started := none,
        image := none, ports := none, error := some "inspect failed" }
    | some c =>
      { existsFlag := true, running := c.running, status := some c.status,
        started := some c.startedAt, image := some c.image, ports := some c.ports,
        error := none }

/-! ## Remote deployment engine (`claraCoreRemoteService.cjs`)

A remote session after `ready` is modelled by a total map `RHost` from
the exact command string handed to `conn.exec` to its exit code, stdout
and stderr (`err` is the accumulated, prompt-filtered `stderrOutput`).
`execCommand` resolves `output || errorOutput` regardless of exit code
and rejects only on a `conn.exec` dispatch failure, which a total map
does not produce; `execCommandWithOutput` rejects on a non-zero exit.
The race between the `ready` event, the `error` event and the service's
own overall timer is modelled by `ConnEvent`: whichever fires first. -/

structure CmdOut where
  code : Nat
  out : String
  err : String
deriving DecidableEq

abbrev RHost := String → CmdOut

/-- The sudo rewriting done by `execCommand`/`execCommandWithOutput`
(remote service lines 747-761 and 797-811): when a sudo password is held
and the command mentions `sudo`, the password is piped into `sudo -S`;
piped commands are wrapped in `bash -c` with every `sudo` rewritten,
plain leading-`sudo` commands have just the head rewritten and commands
that only mention `sudo` in the middle without a pipe are left as-is. -/
def wrapSudo (sudoPassword : Option String) (command : String) : String :=
  match sudoPassword with
  | none => command
  | some pw =>
    if strIncludes command "sudo" then
      let escapedPassword := jsReplaceAll pw "\x27" "\x27\\\x27\x27"
      if strIncludes command "|" && strIncludes command "sudo" then
        "bash -c \"echo \x27" ++ escapedPassword ++ "\x27 | " ++
          jsReplaceAll command "sudo" "sudo -S" ++ "\""
      else if jsStartsWith (jsTrim command) "sudo " then
        "echo \x27" ++ escapedPassword ++ "\x27 | sudo -S " ++
          (jsDropWhile (jsDrop command 5) (fun c => c.isWhitespace))
      else command
    else command

/-- `execCommand(conn, command)` (remote service lines 744-789): resolves
`output || errorOutput`; a non-zero exit is only logged. -/
def execCommand (h : RHost) (sudoPassword : Option String) (command : String) : String :=
  let r := h (wrapSudo sudoPassword command)
  if jsTruthy r.out then r.out else r.err

/-- `execCommandWithOutput(conn, command)` (remote service lines
794-859): resolves on exit code 0, rejects otherwise with the captured
stderr attached. -/
def execCommandWithOutput (h : RHost) (sudoPassword : Option String) (command : String) :
    Except String Unit :=
  let r := h (wrapSudo sudoPassword command)
  if r.code == 0 then .ok ()
  else if jsTruthy r.err then
    .error ("Command failed with code " ++ toString r.code ++ ": " ++ r.err)
  else .error ("Command failed with code " ++ toString r.code)

/-- `detectDistro(osRelease)` (remote service lines 502-510). -/
def detectDistro (osRelease : String) : String :=
  if strIncludes osRelease "Ubuntu" then "Ubuntu"
  else if strIncludes osRelease "Debian" then "Debian"
  else if strIncludes osRelease "Fedora" then "Fedora"
  else if strIncludes osRelease "CentOS" then "CentOS"
  else if strIncludes osRelease "Red Hat" then "RHEL"
  else if strIncludes osRelease "Arch" then "Arch Linux"
  else "Unknown Linux"

/-- `checkDocker(conn)` (remote service lines 443-450). -/
def checkDocker (h : RHost) (sudoPassword : Option String) : Bool :=
  let result := execCommand h sudoPassword "docker --version 2>/dev/null"
  jsTruthy result && !(strIncludes result "command not found")

/-- `installDocker(conn)` (remote service lines 456-497): only the
convenience-script step runs through `execCommandWithOutput` and can
reject; the catch wraps any such failure. -/
def installDocker (h : RHost) (sudoPassword : Option String) : Except String Unit :=
  let osRelease := execCommand h sudoPassword "cat /etc/os-release"
  let _distro := detectDistro osRelease
  let _ := execCommand h sudoPassword "curl -fsSL https://get.docker.com -o /tmp/get-docker.sh"
  match execCommandWithOutput h sudoPassword "sudo sh /tmp/get-docker.sh" with
  | .error e => .error ("Failed to install Docker: " ++ e)
  | .ok _ =>
    let _ := execCommand h sudoPassword "rm /tmp/get-docker.sh"
    let username := execCommand h sudoPassword "whoami"
    let user := if jsTruthy (jsTrim username) then jsTrim username else "ubuntu"
    let _ := execCommand h sudoPassword ("sudo usermod -aG docker " ++ user)
    let _ := execCommand h sudoPassword "sudo systemctl start docker"
    let _ := execCommand h sudoPassword "sudo systemctl enable docker"
    .ok ()

/-- `installNvidiaToolkitApt(conn)` (remote service lines 589-610). -/
def installNvidiaToolkitApt (h : RHost) (sudoPassword : Option String) : Except String Unit := do
  execCommandWithOutput h sudoPassword
    "curl -fsSL https://nvidia.github.io/libnvidia-container/gpgkey | sudo gpg --dearmor -o /usr/share/keyrings/nvidia-container-toolkit-keyring.gpg"
  execCommandWithOutput h sudoPassword
    "curl -s -L https://nvidia.github.io/libnvidia-container/stable/deb/nvidia-container-toolkit.list | sed \x27s#deb https://#deb [signed-by=/usr/share/keyrings/nvidia-container-toolkit-keyring.gpg] https://#g\x27 | sudo tee /etc/apt/sources.list.d/nvidia-container-toolkit.list"
  execCommandWithOutput h sudoPassword "sudo apt-get update"
  execCommandWithOutput h sudoPassword "sudo apt-get install -y nvidia-container-toolkit"

/-- `installNvidiaToolkitYum(conn)` (remote service lines 615-628). -/
def installNvidiaToolkitYum (h : RHost) (sudoPassword : Option String) : Except String Unit := do
  execCommandWithOutput h sudoPassword
    "curl -s -L https://nvidia.github.io/libnvidia-container/stable/rpm/nvidia-container-toolkit.repo | sudo tee /etc/yum.repos.d/nvidia-container-toolkit.repo"
  execCommandWithOutput h sudoPassword "sudo yum install -y nvidia-container-toolkit"

/-- `setupCuda(conn)` (remote service lines 515-584). -/
def setupCuda (h : RHost) (sudoPassword : Option String) : Except String Unit :=
  let nvidiaCheck := execCommand h sudoPassword "nvidia-smi 2>/dev/null"
  if !(jsTruthy nvidiaCheck) || strIncludes nvidiaCheck "command not found" then
    .error "NVIDIA drivers not found. Please install NVIDIA drivers first."
  else
    let hasToolkit := execCommand h sudoPassword "which nvidia-ctk 2>/dev/null"
    let installStep : Except String Unit :=
      if !(jsTruthy hasToolkit) || !(jsTruthy (jsTrim hasToolkit)) then
        let hasApt := execCommand h sudoPassword "which apt-get 2>/dev/null"
        let hasYum := execCommand h sudoPassword "which yum 2>/dev/null"
        if jsTruthy hasApt && jsTruthy (jsTrim hasApt) then installNvidiaToolkitApt h sudoPassword
        else if jsTruthy hasYum && jsTruthy (jsTrim hasYum) then installNvidiaToolkitYum h sudoPassword
        else .error "Unsupported package manager. Only apt and yum are supported."
      else .ok ()
    match installStep with
    | .error e => .error e
    | .ok _ =>
      let _ := execCommand h sudoPassword "sudo nvidia-ctk runtime configure --runtime=docker"
      let _ := execCommand h sudoPassword "sudo systemctl daemon-reload"
      let _ := execCommand h sudoPassword "sudo systemctl restart docker"
      let dockerContext := execCommand h sudoPassword "docker context show 2>/dev/null"
      let _ :=
        if jsTruthy dockerContext && strIncludes dockerContext "desktop-linux" then
          let _ := execCommand h sudoPassword "docker context use default"
          let username := execCommand h sudoPassword "whoami"
          execCommand h sudoPassword ("sudo usermod -aG docker " ++ jsTrim username)
        else ""
      let _runtimeCheck := execCommand h sudoPassword "docker info 2>/dev/null | grep -i runtime"
      .ok ()

/-- `setupRocm(conn)` (remote service lines 633-662). -/
def setupRocm (h : RHost) (sudoPassword : Option String) : Except String Unit :=
  let kfdCheck := execCommand h sudoPassword "test -e /dev/kfd && echo \"exists\" || echo \"missing\""
  if jsTrim kfdCheck == "missing" then
    .error "ROCm device /dev/kfd not found. Please install ROCm drivers first.\n\nInstallation guide: https://rocmdocs.amd.com/en/latest/Installation_Guide/Installation-Guide.html"
  else
    let driCheck := execCommand h sudoPassword "test -e /dev/dri && echo \"exists\" || echo \"missing\""
    if jsTrim driCheck == "missing" then
      .error "Device /dev/dri not found. AMD GPU drivers may not be installed correctly."
    else
      let username := execCommand h sudoPassword "whoami"
      let _ := execCommand h sudoPassword ("sudo usermod -a -G video,render " ++ jsTrim username)
      .ok ()

/-- `setupStrix(conn)` (remote service lines 668-739). -/
def setupStrix (h : RHost) (sudoPassword : Option String) : Except String Unit :=
  let driCheck := execCommand h sudoPassword "test -e /dev/dri && echo \"exists\" || echo \"missing\""
  if jsTrim driCheck == "missing" then
    .error "Device /dev/dri not found. AMD GPU drivers (amdgpu) may not be installed.\n\nPlease ensure the Linux kernel has amdgpu drivers loaded."
  else
    let vulkanCheck := execCommand h sudoPassword "which vulkaninfo 2>/dev/null"
    let installStep : Except String Unit :=
      if !(jsTruthy vulkanCheck) || !(jsTruthy (jsTrim vulkanCheck)) then
        let osRelease := execCommand h sudoPassword "cat /etc/os-release"
        let distro := detectDistro osRelease
        let pkgs : Except String Unit :=
          if strIncludes osRelease "Ubuntu" || strIncludes osRelease "Debian" then do
            execCommandWithOutput h sudoPassword "sudo apt-get update"
            execCommandWithOutput h sudoPassword "sudo apt-get install -y mesa-vulkan-drivers vulkan-tools libvulkan1"
          else if strIncludes osRelease "Fedora" || strIncludes osRelease "Red Hat" || strIncludes osRelease "CentOS" then
            execCommandWithOutput h sudoPassword "sudo dnf install -y mesa-vulkan-drivers vulkan-tools vulkan-loader"
          else if strIncludes osRelease "Arch" then
            execCommandWithOutput h sudoPassword "sudo pacman -S --noconfirm vulkan-radeon vulkan-tools"
          else
            .error ("Unsupported distribution: " ++ distro ++ ". Please install mesa-vulkan-drivers and vulkan-tools manually.")
        match pkgs with
        | .error e => .error e
        | .ok _ =>
          let _vulkanVerify := execCommand h sudoPassword
            "vulkaninfo --summary 2>&1 | grep -i \"Vulkan Instance Version\" || echo \"failed\""
          .ok ()
      else
        let _vulkanDevices := execCommand h sudoPassword
          "vulkaninfo --summary 2>&1 | grep -i \"deviceName\" || echo \"none\""
        .ok ()
    match installStep with
    | .error e => .error e
    | .ok _ =>
      let username := execCommand h sudoPassword "whoami"
      let _ := execCommand h sudoPassword ("sudo usermod -a -G video,render " ++ jsTrim username)
      .ok ()

/-- `buildDockerRunCommand(hardwareType, containerName, imageName)`
(remote service lines 413-438). -/
def buildDockerRunCommand (hardwareType containerNm imageName : String) : String :=
  let baseCmd := "docker run -d --name " ++ containerNm ++
    " --network clara_network --restart unless-stopped -p 8091:5890 -p 5890:5890 --add-host=host.docker.internal:172.17.0.1"
  let volume := "-v claracore-" ++ hardwareType ++ "-downloads:/app/downloads"
  if hardwareType == "cuda" then
    baseCmd ++ " --gpus all " ++ volume ++ " " ++ imageName
  else if hardwareType == "rocm" then
    baseCmd ++ " --device=/dev/kfd --device=/dev/dri --group-add video --ipc=host --cap-add=SYS_PTRACE --security-opt seccomp=unconfined " ++ volume ++ " " ++ imageName
  else if hardwareType == "strix" then
    baseCmd ++ " --device=/dev/dri --group-add video --security-opt seccomp=unconfined " ++ volume ++ " " ++ imageName
  else
    baseCmd ++ " " ++ volume ++ " " ++ imageName

/-! ### Hardware detection (`detectHardware`, remote service lines 95-193) -/

structure HWDetails where
  docker : Bool
  nvidia : Bool
  rocm : Bool
  strix : Bool
  architecture : String
  dockerVersion : Option String
  gpuInfo : Option String
  cudaVersion : Option String
  rocmVersion : Option String
  cpuModel : Option String
deriving DecidableEq

structure HWResult where
  detected : String
  confidence : String
  details : HWDetails
  error : Option String := none
  unsupportedReason : Option String := none
deriving DecidableEq

/-- The ARM test of remote service lines 155-156. -/
def isArmArch (architecture : String) : Bool :=
  strIncludes architecture "arm" || strIncludes architecture "aarch"

/-- The architecture string recorded from `uname -m`: the trimmed output
when truthy, else the initial `'unknown'`. -/
def jsArchOf (archInfo : String) : String :=
  if jsTruthy archInfo then jsTrim archInfo else "unknown"

def unameCmd : String := "uname -m"
def dockerVerCmd : String := "docker --version 2>/dev/null"
def nvidiaQueryCmd : String := "nvidia-smi --query-gpu=name --format=csv,noheader 2>/dev/null"
def cudaVerCmd : String := "nvcc --version 2>/dev/null | grep \"release\" | awk \x27\x7bprint $5\x7d\x27"
def rocmQueryCmd : String := "rocm-smi --showproductname 2>/dev/null"
def rocmVerCmd : String := "cat /opt/rocm/.info/version 2>/dev/null"
def lscpuCmd : String := "lscpu | grep \"Model name\""

/-- `detectHardware(conn)`: probes architecture, Docker, NVIDIA (plus a
CUDA-toolkit query when NVIDIA is found), ROCm (plus a version read when
found) and the CPU model, then checks for ARM and finally ranks
NVIDIA > strix > ROCm > CPU.  Returns the result together with the list
of commands issued, in order.  The ARM check happens only after all
probes have run.  These probe commands contain no `sudo`, so the
password wrapping of `execCommand` never fires here; the session is
queried with no stored sudo password. -/
def detectHardware (h : RHost) : HWResult × List String :=
  let archInfo := execCommand h none unameCmd
  let architecture := jsArchOf archInfo
  let dockerVersionOut := execCommand h none dockerVerCmd
  let dockerFlag := jsTruthy dockerVersionOut && !(strIncludes dockerVersionOut "command not found")
  let dockerVersion := if dockerFlag then some (jsTrim dockerVersionOut) else none
  let nvidiaInfo := execCommand h none nvidiaQueryCmd
  let nvidiaFlag := jsTruthy nvidiaInfo && !(strIncludes nvidiaInfo "command not found") &&
    jsTruthy (jsTrim nvidiaInfo)
  let gpuInfo := if nvidiaFlag then some (jsTrim nvidiaInfo) else none
  let cudaOut := execCommand h none cudaVerCmd
  let cudaVersion :=
    if nvidiaFlag then
      if jsTruthy cudaOut && jsTruthy (jsTrim cudaOut) then
        some (removeFirstOcc (jsTrim cudaOut) ",")
      else none
    else none
  let rocmInfo := execCommand h none rocmQueryCmd
  let rocmFlag := jsTruthy rocmInfo && !(strIncludes rocmInfo "command not found") &&
    jsTruthy (jsTrim rocmInfo)
  let rocmVerOut := execCommand h none rocmVerCmd
  let rocmVersion :=
    if rocmFlag then
      if jsTruthy rocmVerOut && jsTruthy (jsTrim rocmVerOut) then some (jsTrim rocmVerOut) else none
    else none
  let cpuInfo := execCommand h none lscpuCmd
  let cpuModel := if jsTruthy cpuInfo then some (jsTrim (removeFirstOcc cpuInfo "Model name:")) else none
  let strixFlag := jsTruthy cpuInfo &&
    (strIncludes cpuInfo "Ryzen AI Max" || strIncludes cpuInfo "Strix" || strIncludes cpuInfo "8040")
  let details : HWDetails :=
    { docker := dockerFlag, nvidia := nvidiaFlag, rocm := rocmFlag, strix := strixFlag,
      architecture := architecture, dockerVersion := dockerVersion, gpuInfo := gpuInfo,
      cudaVersion := cudaVersion, rocmVersion := rocmVersion, cpuModel := cpuModel }
  let trace := [unameCmd, dockerVerCmd, nvidiaQueryCmd] ++
    (if nvidiaFlag then [cudaVerCmd] else []) ++ [rocmQueryCmd] ++
    (if rocmFlag then [rocmVerCmd] else []) ++ [lscpuCmd]
  if isArmArch architecture then
    ({ detected := "unsupported", confidence := "high", details := details,
       error := some ("ARM architecture (" ++ architecture ++
         ") is not supported yet. ClaraCore Docker images are currently only available for x86_64/amd64 architecture."),
       unsupportedReason := some "arm" }, trace)
  else if nvidiaFlag then
    ({ detected := "cuda",
       confidence := if jsTruthyOpt cudaVersion then "high" else "medium",
       details := details }, trace)
  else if strixFlag then
    ({ detected := "strix", confidence := "high", details := details }, trace)
  else if rocmFlag then
    ({ detected := "rocm", confidence := "high", details := details }, trace)
  else
    ({ detected := "cpu", confidence := "high", details := details }, trace)

/-! ### The public remote operations -/

structure DeployConfig where
  host : String
  port : Nat := 22
  username : String
  password : String
  hardwareType : String
deriving DecidableEq

structure DeployResult where
  success : Bool
  error : Option String := none
  url : Option String := none
  containerName : Option String := none
  hardwareType : Option String := none
  gpuAvailable : Bool := false
  fallbackToCpu : Bool := false
  message : Option String := none
deriving DecidableEq

/-- An ssh2 connection-level error: message plus the `level`/`code`
fields the handlers inspect. -/
structure SshErr where
  message : String
  level : Option String := none
  code : Option String := none
deriving DecidableEq

/-- Which of the racing outcomes of one connection attempt happens
first: the `ready` event (with the session's command behaviour), the
connection `error` event, or the operation's own overall timer. -/
inductive ConnEvent where
  | ready (h : RHost)
  | connError (e : SshErr)
  | timeoutFirst

/-- The error-message rewriting of deploy's catch block (remote service
lines 357-362). -/
def deployCatchMsg (msg : String) : String :=
  if strIncludes msg "incorrect password" then
    "Incorrect sudo password. Please verify your SSH password and try again."
  else if strIncludes msg "Permission denied" then
    "SSH authentication failed. Please check your credentials."
  else msg

/-- The error-message rewriting of deploy's connection-error handler
(remote service lines 382-389). -/
def deployConnErrMsg (err : SshErr) : String :=
  if err.level == some "client-authentication" then
    "SSH authentication failed. Please check your username and password."
  else if err.code == some "ECONNREFUSED" then
    "Connection refused. Please check the host and port."
  else if err.code == some "ETIMEDOUT" || err.code == some "ENOTFOUND" then
    "Connection timeout. Please check the host address and your network connection."
  else err.message

/-- The body of deploy's `ready` handler (remote service lines 215-369),
including its catch: the returned `DeployResult` is what the promise
resolves with.  The source wraps the `docker run` call in a try/catch
that rethrows `Failed to start container: …`; since `execCommand`
rejects only on a `conn.exec` dispatch failure, which this model's total
hosts never produce, that branch is unreachable here.  Note that step 7
filters `docker ps` by `containerName` — the name derived from the
requested hardware type — not by `finalContainerName`. -/
def deployReady (config : DeployConfig) (h : RHost) : DeployResult :=
  let sudoPw := some config.password
  let body : Except String DeployResult := do
    let hardwareType := config.hardwareType
    let containerName := "claracore-" ++ hardwareType
    let hasDocker := checkDocker h sudoPw
    if !hasDocker then installDocker h sudoPw
    let networkCheck := execCommand h sudoPw
      "docker network ls --filter name=clara_network --format \"\x7b\x7b.Name\x7d\x7d\""
    let _ :=
      if !(jsTruthy networkCheck) || !(strIncludes networkCheck "clara_network") then
        execCommand h sudoPw "docker network create clara_network --driver bridge --subnet 172.25.0.0/16"
      else ""
    let setupResult : Except String Unit :=
      if hardwareType != "cpu" then
        if hardwareType == "cuda" then setupCuda h sudoPw
        else if hardwareType == "rocm" then setupRocm h sudoPw
        else if hardwareType == "strix" then setupStrix h sudoPw
        else .ok ()
      else .ok ()
    let fall :=
      if hardwareType != "cpu" then
        match setupResult with
        | .ok _ =>
          (hardwareType,
           hardwareType == "cuda" || hardwareType == "rocm" || hardwareType == "strix")
        | .error _ => ("cpu", false)
      else (hardwareType, false)
    let actualHardwareType := fall.1
    let gpuAvailable := fall.2
    let finalImageName := "clara17verse/claracore:" ++ actualHardwareType
    let finalContainerName := "claracore-" ++ actualHardwareType
    let _ := execCommand h sudoPw ("docker stop " ++ finalContainerName ++ " 2>/dev/null || true")
    let _ := execCommand h sudoPw ("docker rm " ++ finalContainerName ++ " 2>/dev/null || true")
    execCommandWithOutput h sudoPw ("docker pull " ++ finalImageName)
    let runCommand := buildDockerRunCommand actualHardwareType finalContainerName finalImageName
    let _runResult := execCommand h sudoPw runCommand
    let isRunning := execCommand h sudoPw ("docker ps -q -f name=" ++ containerName)
    if !(jsTruthy isRunning) || !(jsTruthy (jsTrim isRunning)) then
      let logs := execCommand h sudoPw
        ("docker logs " ++ containerName ++ " 2>&1 || echo \"No logs available\"")
      let inspectOut := execCommand h sudoPw
        ("docker inspect " ++ containerName ++
          " --format=\x27\x7b\x7b.State.Status\x7d\x7d: \x7b\x7b.State.Error\x7d\x7d\x27 2>&1 || echo \"Container not found\"")
      throw ("Container failed to start.\n\nStatus: " ++ inspectOut ++ "\n\nLogs:\n" ++
        jsTake logs 500)
    let healthCheck := execCommand h sudoPw
      "curl -sf http://localhost:5890/health 2>&1 || echo \"Health check not available\""
    let _ := strIncludes healthCheck "Health check not available"
    pure { success := true,
           url := some ("http://" ++ config.host ++ ":5890"),
           containerName := some finalContainerName,
           hardwareType := some actualHardwareType,
           gpuAvailable := gpuAvailable,
           fallbackToCpu := (hardwareType != "cpu" && actualHardwareType == "cpu"),
           message := some (if gpuAvailable then
               "Successfully deployed with " ++ jsToUpper actualHardwareType ++ " acceleration"
             else
               "Deployed in CPU mode" ++
                 (if hardwareType != "cpu" then " (GPU unavailable)" else "")) }
  match body with
  | .ok r => r
  | .error msg => { success := false, error := some (deployCatchMsg msg) }

/-- `deploy(config)` (remote service lines 198-407).  The pair's first
component is the promise outcome (`.error` = rejection), the second the
value of `this.sudoPassword` at the moment the promise settles.  The
password is stored at entry (line 205); the `ready` handler clears it on
both success and caught error (lines 328, 351), the `error` handler
clears it (line 377), but the timeout handler (lines 207-213) only ends
the connection and rejects, leaving it set. -/
def deploy (config : DeployConfig) (ev : ConnEvent) :
    Except String DeployResult × Option String :=
  match ev with
  | .timeoutFirst => (.error "Deployment timeout after 5 minutes", some config.password)
  | .connError err => (.ok { success := false, error := some (deployConnErrMsg err) }, none)
  | .ready h => (.ok (deployReady config h), none)

structure TestResult where
  success : Bool
  hardware : Option HWResult := none
  error : Option String := none
deriving DecidableEq

/-- `testSetup(config)` (remote service lines 24-90): resolves a
structured failure on a connection error, resolves the detected hardware
on success, and rejects when its 30-second timer fires first.  (The
inner catch that converts a hardware-detection rejection into
`success:false` is unreachable with the total command maps modelled
here.) -/
def testSetup (ev : ConnEvent) : Except String TestResult :=
  match ev with
  | .timeoutFirst => .error "Connection timeout after 30 seconds"
  | .connError err => .ok { success := false, error := some err.message }
  | .ready h => .ok { success := true, hardware := some (detectHardware h).1 }

structure ServiceStatus where
  name : String
  hardwareType : String
  status : String
  isHealthy : Bool
  ports : String
  url : Option String
deriving DecidableEq

structure MonitorResult where
  success : Bool
  host : String
  services : List ServiceStatus
  totalServices : Nat
  runningServices : Nat
  healthyServices : Nat
deriving DecidableEq

/-- One line of the container listing (remote service lines 889-915). -/
def monitorLine (h : RHost) (cfgHost : String) (line : String) : ServiceStatus :=
  let parts := jsSplitOn line "|"
  let name := parts.getD 0 ""
  let status := parts.getD 1 ""
  let portsStr := parts.getD 2 ""
  let hardwareType := removeFirstOcc name "claracore-"
  let isRunning := strIncludes (jsToLower status) "up"
  let isHealthy :=
    if isRunning then
      let healthCheck := execCommand h none "curl -sf http://localhost:5890/health 2>&1"
      jsTruthy healthCheck && !(strIncludes healthCheck "Failed to connect")
    else false
  { name := name, hardwareType := hardwareType,
    status := if isRunning then "running" else "stopped",
    isHealthy := if isRunning then isHealthy else false,
    ports := if jsTruthy portsStr then portsStr else "N/A",
    url := if isRunning then some ("http://" ++ cfgHost ++ ":5890") else none }

/-- `monitorRemoteServices(config)` (remote service lines 865-961):
unlike the other two public operations, its connection-error handler and
its timeout handler both *reject* (lines 870-876 and 945-951); only the
`ready` path resolves.  The wall-clock `timestamp` field of the JS
result is omitted. -/
def monitorRemoteServices (config : DeployConfig) (ev : ConnEvent) :
    Except String MonitorResult :=
  match ev with
  | .timeoutFirst => .error "Monitor timeout after 15 seconds"
  | .connError err => .error err.message
  | .ready h =>
    let containerList := execCommand h none
      "docker ps -a --filter \"name=claracore-\" --format \"\x7b\x7b.Names\x7d\x7d|\x7b\x7b.Status\x7d\x7d|\x7b\x7b.Ports\x7d\x7d\""
    let services :=
      if jsTruthy containerList && jsTruthy (jsTrim containerList) then
        (jsSplitOn (jsTrim containerList) "\n").map (monitorLine h config.host)
      else []
    .ok { success := true, host := config.host, services := services,
          totalServices := services.length,
          runningServices := (services.filter (fun s => s.status == "running")).length,
          healthyServices := (services.filter (fun s => s.isHealthy)).length }

/-! ## `validateServiceConfiguration` (registry file lines 513-556)

The function receives a service map and reads only each entry's
`dependencies` field (defaulting to `[]`), so the map is modelled as an
association list from service name to dependency list — JS object keys
are insertion-ordered, matching the list order.

The cycle detection is the source's recursive `visit` with a `temp`
recursion stack and a `visited` set, both modelled as lists (`visited`
in finish order, most recent first).  `visit(node)` reads
`dependencies[node]`, which is `undefined` when `node` is not a key of
the map: `undefined.forEach` then throws a `TypeError` that aborts the
whole traversal and is caught by the surrounding try/catch, which
records a single generic failure message — errors pushed before the
throw survive, since `errors` is the same array.  `visitEach` is the
`forEach` loop (the outer one over `Object.keys`, and each
`dependencies[node].forEach(visit)`); `.error` carries the state at the
moment of the throw.  The JS recursion needs no fuel; here a fuel
parameter drives termination, with `.error` at zero —
`validateServiceConfiguration` passes `length + 2`, which the no-abort
lemma below proves is never exhausted on well-formed maps (the recursion
adds one node to `temp` per nesting level, so its depth is bounded by
the number of keys plus one). -/

structure VState where
  visited : List String
  temp : List String
  errors : List String
deriving DecidableEq

/-- The message pushed on a recursion-stack hit (registry file line 529). -/
def cycleMsg (node : String) : String :=
  "Circular dependency detected involving " ++ node

/-- The message pushed by the catch around the traversal (registry file
line 542), with the V8 `TypeError` text for `undefined.forEach`. -/
def tyErrMsg : String :=
  "Dependency validation failed: Cannot read properties of undefined (reading \x27forEach\x27)"

/-- The missing-dependency message (registry file line 550). -/
def missingMsg (serviceName dep : String) : String :=
  "Service " ++ serviceName ++ " depends on " ++ dep ++ " which is not enabled"

/-- A `forEach(visit)` loop: run `step` on each node in order, aborting
on a thrown `TypeError`. -/
def visitEach (step : String → VState → Except VState VState) :
    List String → VState → Except VState VState
  | [], s => .ok s
  | node :: rest, s =>
    match step node s with
    | .error e => .error e
    | .ok s' => visitEach step rest s'

/-- The recursive `visit(node)` (registry file lines 527-538). -/
def visit (svcs : List (String × List String)) : Nat → String → VState → Except VState VState
  | 0, _, s => .error s
  | fuel + 1, node, s =>
    if s.temp.contains node then
      .ok { s with errors := s.errors ++ [cycleMsg node] }
    else if s.visited.contains node then
      .ok s
    else
      match svcs.lookup node with
      | none => .error { s with temp := node :: s.temp }
      | some ds =>
        match visitEach (visit svcs fuel) ds { s with temp := node :: s.temp } with
        | .error e => .error e
        | .ok s₂ => .ok { s₂ with temp := s₂.temp.erase node, visited := node :: s₂.visited }

/-- The second pass (registry file lines 546-553): every declared
dependency must resolve to an enabled service. -/
def missingDepErrors (svcs : List (String × List String)) : List String :=
  ((svcs.map (fun p =>
      (p.2.filter (fun dep => (svcs.lookup dep).isNone)).map (missingMsg p.1)))).flatten

/-- `validateServiceConfiguration(services)`. -/
def validateServiceConfiguration (svcs : List (String × List String)) : List String :=
  let keys := svcs.map (fun p => p.1)
  match visitEach (visit svcs (svcs.length + 2)) keys ⟨[], [], []⟩ with
  | .ok s => s.errors ++ missingDepErrors svcs
  | .error s => (s.errors ++ [tyErrMsg]) ++ missingDepErrors svcs

/-! ### Graph notions used to state the C5 claims -/

/-- `Edge svcs u v`: service `u` declares a dependency on `v`. -/
def Edge (svcs : List (String × List String)) (u v : String) : Prop :=
  ∃ ds, svcs.lookup u = some ds ∧ v ∈ ds

/-- The dependency graph has a (directed, possibly self-loop) cycle. -/
def HasCycle (svcs : List (String × List String)) : Prop :=
  ∃ u l, l ≠ [] ∧ List.Chain (Edge svcs) u l ∧ l.getLast? = some u

/-- Every declared dependency resolves to an entry of the map. -/
def WellFormedDeps (svcs : List (String × List String)) : Prop :=
  ∀ p ∈ svcs, ∀ d ∈ p.2, (svcs.lookup d).isSome

/-- A finish-ordered visited list: each node's dependencies were all
finished strictly earlier (i.e. appear in its tail). -/
def TopoList (svcs : List (String × List String)) : List String → Prop
  | [] => True
  | u :: rest => (∀ v, Edge svcs u v → v ∈ rest) ∧ TopoList svcs rest

deriving instance DecidableEq for Except

/-! ## Auxiliary notions for the `validateServiceConfiguration` proofs -/

/-- What one successful `visit` step does to the state: the recursion
stack is restored, the visited list is extended, and only cycle
messages may have been appended to the errors. -/
def StepShape (s s' : VState) : Prop :=
  s'.temp = s.temp ∧ (∃ new, s'.visited = new ++ s.visited) ∧
  (∃ tl, s'.errors = s.errors ++ tl ∧ ∀ e ∈ tl, ∃ n, e = cycleMsg n)

/-- The keys not yet on the recursion stack: the quantity that bounds
the remaining recursion depth. -/
def kRem (svcs : List (String × List String)) (s : VState) : Nat :=
  ((svcs.map (fun p => p.1)).filter (fun k => !(s.temp.contains k))).length

/-- The last element of a chain's node list, or its start when empty. -/
def lastD (a : String) : List String → String
  | [] => a
  | x :: xs => lastD x xs

/-- A two-service map whose dependency graph is the two-cycle a ⇄ b,
with every declared dependency enabled. -/
def svcsW : List (String × List String) := [("a", ["b"]), ("b", ["a"])]

/-- A service map with the same two-cycle a ⇄ b, where `a` additionally
declares the missing dependency `x`. -/
def svcsC5 : List (String × List String) := [("a", ["x", "b"]), ("b", ["a"])]


/-! ## Concrete inputs used by the claim theorems and witnesses -/

/-- A deploy request for the CUDA variant. -/
def cfgCuda : DeployConfig :=
  { host := "10.0.0.5", username := "ubuntu", password := "hunter2", hardwareType := "cuda" }

/-- A remote host on which every container-engine command for the CPU
variant succeeds (and `docker ps` filtered by the CPU name reports a
running container id), but NVIDIA drivers are absent, so `setupCuda`
throws at its first check.  All other commands succeed with empty
output. -/
def hostC2 : RHost := fun cmd =>
  if cmd == dockerVerCmd then
    { code := 0, out := "Docker version 24.0.7, build afdd53b", err := "" }
  else if cmd == "nvidia-smi 2>/dev/null" then
    { code := 0, out := "", err := "" }
  else if cmd == "docker network ls --filter name=clara_network --format \"\x7b\x7b.Name\x7d\x7d\"" then
    { code := 0, out := "clara_network\n", err := "" }
  else if cmd == "docker ps -q -f name=claracore-cpu" then
    { code := 0, out := "f00dc0de1234\n", err := "" }
  else if cmd == "docker logs claracore-cuda 2>&1 || echo \"No logs available\"" then
    { code := 0, out := "No logs available", err := "" }
  else if cmd == "docker inspect claracore-cuda --format=\x27\x7b\x7b.State.Status\x7d\x7d: \x7b\x7b.State.Error\x7d\x7d\x27 2>&1 || echo \"Container not found\"" then
    { code := 0, out := "Container not found", err := "" }
  else
    { code := 0, out := "", err := "" }

/-- A session whose architecture query reports an ARM machine and whose
other probes all come back empty. -/
def exC3 : RHost := fun cmd =>
  if cmd == unameCmd then { code := 0, out := "aarch64\n", err := "" }
  else { code := 0, out := "", err := "" }

/-- A session on an x86_64 machine with an NVIDIA GPU and a CUDA
toolkit version available. -/
def exC8 : RHost := fun cmd =>
  if cmd == unameCmd then { code := 0, out := "x86_64\n", err := "" }
  else if cmd == nvidiaQueryCmd then
    { code := 0, out := "NVIDIA GeForce RTX 4090\n", err := "" }
  else if cmd == cudaVerCmd then { code := 0, out := "12.4,\n", err := "" }
  else { code := 0, out := "", err := "" }

/-- The connection error used in the C4 counterexample. -/
def errC4 : SshErr :=
  { message := "connect ECONNREFUSED 10.0.0.5:22", code := some "ECONNREFUSED" }

/-- A monitoring request (credentials are irrelevant to the claim). -/
def cfgMon : DeployConfig :=
  { host := "10.0.0.5", username := "ubuntu", password := "pw", hardwareType := "cpu" }

/-- A running `clara_core` container as reported by the engine. -/
def cRun : ContainerRec :=
  { names := ["/clara_core"], running := true, status := "running",
    startedAt := "2024-01-01T00:00:00Z", image := "clara17verse/claracore:cpu",
    ports := [("5890/tcp", "8091")] }

/-- A healthy engine that already hosts the running `clara_core`. -/
def eRun : Engine :=
  { pingOk := true, platform := "linux", nvidiaSmi := none, rocmSmi := none,
    vulkanInfo := none, listOk := true, containers := [cRun], inspectOk := true,
    startOk := true, images := ["clara17verse/claracore:cpu"], pullOk := true,
    createOk := true, healthyWithinWindow := true }

/-- An engine whose `listContainers` call fails (even though a running
container is present behind it). -/
def eListFail : Engine :=
  { eRun with listOk := false }

/-! ## Claim theorems -/

/-- C7: the claracore service declares docker mode for win32/linux only. -/
theorem claimC7 :
    isServiceModeSupported "claracore" "docker" "darwin" = false ∧
    isServiceModeSupported "claracore" "docker" "win32" = true := by
  decide

/-- C10: a service name absent from the registry, or a registered
service without a `deploymentModes` list, defaults to docker mode:
`isServiceModeSupported` is true exactly for `'docker'` and
`getSupportedDeploymentModes` returns exactly `['docker']`, on every
platform. -/
theorem claimC10 (serviceName deploymentMode targetPlatform : String)
    (hdef : match SERVICE_DEFINITIONS.lookup serviceName with
            | none => True
            | some svc => svc.deploymentModes = none) :
    isServiceModeSupported serviceName deploymentMode targetPlatform =
      (deploymentMode == "docker") ∧
    getSupportedDeploymentModes serviceName targetPlatform = ["docker"] := by
  unfold isServiceModeSupported getSupportedDeploymentModes
  rcases hlook : SERVICE_DEFINITIONS.lookup serviceName with _ | svc
  · simp [hlook]
  · rw [hlook] at hdef
    simp only at hdef
    simp [hlook, hdef]

/-- C10 witness: evaluated at the unregistered name `unknown-service`
(and a non-docker mode) on darwin. -/
theorem claimC10_witness :
    isServiceModeSupported "unknown-service" "manual" "darwin" = ("manual" == "docker") ∧
    getSupportedDeploymentModes "unknown-service" "darwin" = ["docker"] :=
  claimC10 "unknown-service" "manual" "darwin" trivial

/-- C6: if the named container exists and is already running (on a
reachable engine with working queries), `start` resolves success with
the already-running message and returns the engine unchanged — no
container is created and the existing one is not restarted.  Because the
engine state is returned unchanged, a second `start` call is the very
same evaluation, so both calls succeed and exactly the original
containers remain. -/
theorem claimC6 (e : Engine) (opts : StartOpts) (c : ContainerRec)
    (hping : e.pingOk = true) (hlist : e.listOk = true)
    (hfind : findContainer e = some c) (hrun : c.running = true)
    (hinsp : e.inspectOk = true) :
    ∃ r : StartRes, start e opts = .ok (r, e) ∧ r.success = true ∧
      r.message = "Container already running" := by
  have hce : containerExists e = true := by
    unfold containerExists
    rw [hlist, hfind]
    rfl
  refine ⟨{ success := true, message := "Container already running",
            gpuType := some (match opts.gpuType with | some g => g | none => (detectGPU e).1),
            image := none }, ?_, rfl, rfl⟩
  unfold start
  simp [hping, hce, hinsp, hfind, hrun]

/-- C6 witness: both successive calls on a concrete engine hosting the
running container. -/
theorem claimC6_witness :
    ∃ r : StartRes, start eRun { gpuType := none } = .ok (r, eRun) ∧ r.success = true ∧
      r.message = "Container already running" :=
  claimC6 eRun { gpuType := none } cRun rfl rfl rfl rfl rfl

/-- C9 counterexample: when the existence query itself fails
(`listContainers` errors), `getStatus` does resolve `exists:false`,
`running:false` — but with *no* error field, refuting the claim's
"carrying an error field on failure". -/
theorem claimC9_counterexample :
    eListFail.listOk = false ∧
    getStatus eListFail =
      { existsFlag := false, running := false, status := none, started := none,
        image := none, ports := none, error := none } := by
  decide

/-- C9 (amended): `getStatus` is total (never throws); an absent
container or a failed existence query yields `exists:false`,
`running:false` with no error field; a failed inspect query yields
`exists:false`, `running:false` with an error field; otherwise the
container's running flag, status string, start timestamp, image and
port map are returned. -/
theorem claimC9_amended (e : Engine) :
    ((getStatus e).existsFlag = false → (getStatus e).running = false) ∧
    (containerExists e = false →
      getStatus e = { existsFlag := false, running := false, status := none,
                      started := none, image := none, ports := none, error := none }) ∧
    (containerExists e = true → e.inspectOk = false →
      getStatus e = { existsFlag := false, running := false, status := none,
                      started := none, image := none, ports := none,
                      error := some "inspect failed" }) ∧
    (∀ c, containerExists e = true → e.inspectOk = true → findContainer e = some c →
      getStatus e = { existsFlag := true, running := c.running, status := some c.status,
                      started := some c.startedAt, image := some c.image,
                      ports := some c.ports, error := none }) := by
  unfold getStatus
  by_cases hce : containerExists e = true
  · by_cases hio : e.inspectOk = true
    · rcases hfc : findContainer e with _ | c
      · have : ¬ containerExists e = true := by
          unfold containerExists at *
          by_cases hl : e.listOk = true
          · simp [hl, hfc]
          · simp [hl]
        exact absurd hce this
      · refine ⟨?_, ?_, ?_, ?_⟩
        · simp [hce, hio, hfc]
        · intro hcontra; rw [hcontra] at hce; cases hce
        · intro _ hcontra; rw [hcontra] at hio; cases hio
        · intro c' _ _ hfc'
          cases hfc'
          simp [hce, hio]
    · rw [Bool.not_eq_true] at hio
      refine ⟨?_, ?_, ?_, ?_⟩
      · simp [hce, hio]
      · intro hcontra; rw [hcontra] at hce; cases hce
      · intro _ _; simp [hce, hio]
      · intro c' _ hcontra; rw [hcontra] at hio; cases hio
  · rw [Bool.not_eq_true] at hce
    refine ⟨?_, ?_, ?_, ?_⟩
    · simp [hce]
    · intro _; simp [hce]
    · intro hcontra; rw [hcontra] at hce; cases hce
    · intro c' hcontra; rw [hcontra] at hce; cases hce

/-- C9 witness: the success case evaluated on a concrete engine. -/
theorem claimC9_witness :
    getStatus eRun =
      { existsFlag := true, running := cRun.running, status := some cRun.status,
        started := some cRun.startedAt, image := some cRun.image,
        ports := some cRun.ports, error := none } :=
  (claimC9_amended eRun).2.2.2 cRun rfl rfl rfl

/-- C1 (code bug): on the deploy timeout path the promise rejects with
the timeout error while `this.sudoPassword` still holds the SSH
password — the timeout handler (source lines 207-213) omits the
clearing that the success path (line 328), the catch path (line 351)
and the connection-error handler (line 377) all perform, contradicting
the comments at lines 11-17 and 203-204. -/
theorem claimC1 :
    (deploy cfgCuda .timeoutFirst).1 = .error "Deployment timeout after 5 minutes" ∧
    (deploy cfgCuda .timeoutFirst).2 = some "hunter2" ∧
    (deploy cfgCuda (.connError errC4)).2 = none ∧
    (deploy cfgCuda (.ready hostC2)).2 = none := by
  decide

/-- C2 (code bug): with `hardwareType = 'cuda'`, a failing CUDA setup
and a host where every CPU-variant engine command succeeds and the CPU
container is running (`docker ps -q -f name=claracore-cpu` returns an
id), `deploy`'s ready path resolves `success:false` with a
"Container failed to start" error instead of the claimed
`success:true, fallbackToCpu:true`: the verification step queries
`docker ps -q -f name=claracore-cuda` — the pre-fallback name. -/
theorem claimC2 :
    (deployReady cfgCuda hostC2).success = false ∧
    (deployReady cfgCuda hostC2).fallbackToCpu = false ∧
    (deployReady cfgCuda hostC2).error =
      some "Container failed to start.\n\nStatus: Container not found\n\nLogs:\nNo logs available" ∧
    execCommand hostC2 (some cfgCuda.password) "docker ps -q -f name=claracore-cpu" ≠ "" := by
  decide

/-- C3 counterexample: on an ARM-reporting executor the result is indeed
`unsupported`, but the probe trace is the full five-command sequence
(architecture, Docker, NVIDIA, ROCm, CPU model), not just the
architecture query — the claimed short-circuit does not happen. -/
theorem claimC3_counterexample :
    (detectHardware exC3).1.detected = "unsupported" ∧
    (detectHardware exC3).2 =
      [unameCmd, dockerVerCmd, nvidiaQueryCmd, rocmQueryCmd, lscpuCmd] ∧
    (detectHardware exC3).2 ≠ [unameCmd] := by
  decide

/-- C3 (amended): for every executor whose architecture string reads as
ARM, `detectHardware` returns `detected:'unsupported'` with confidence
`'high'`, a reason string and `unsupportedReason:'arm'` — but only
after issuing the Docker, NVIDIA, ROCm and CPU-model probes as well;
the architecture check does not short-circuit the probe sequence. -/
theorem claimC3_amended (h : RHost)
    (harm : isArmArch (jsArchOf (execCommand h none unameCmd)) = true) :
    (detectHardware h).1.detected = "unsupported" ∧
    (detectHardware h).1.confidence = "high" ∧
    (detectHardware h).1.unsupportedReason = some "arm" ∧
    ((detectHardware h).1.error).isSome = true ∧
    dockerVerCmd ∈ (detectHardware h).2 ∧
    nvidiaQueryCmd ∈ (detectHardware h).2 ∧
    rocmQueryCmd ∈ (detectHardware h).2 ∧
    lscpuCmd ∈ (detectHardware h).2 := by
  unfold detectHardware
  simp [harm]

/-- C3 witness: the amended statement evaluated on the concrete
aarch64-reporting executor. -/
theorem claimC3_witness :
    (detectHardware exC3).1.unsupportedReason = some "arm" ∧
    dockerVerCmd ∈ (detectHardware exC3).2 := by
  have h := claimC3_amended exC3 (by decide)
  exact ⟨h.2.2.1, h.2.2.2.2.1⟩

/-- C8: on every non-ARM probe outcome, the recommendation follows
NVIDIA > strix > ROCm > CPU on the recorded capability flags, and the
confidence is exactly `'medium'` when NVIDIA wins without a (truthy)
retrieved CUDA toolkit version and exactly `'high'` in every other
case. -/
theorem claimC8 (h : RHost)
    (harm : isArmArch (jsArchOf (execCommand h none unameCmd)) = false) :
    ((detectHardware h).1.details.nvidia = true → (detectHardware h).1.detected = "cuda") ∧
    ((detectHardware h).1.details.nvidia = false → (detectHardware h).1.details.strix = true →
      (detectHardware h).1.detected = "strix") ∧
    ((detectHardware h).1.details.nvidia = false → (detectHardware h).1.details.strix = false →
      (detectHardware h).1.details.rocm = true → (detectHardware h).1.detected = "rocm") ∧
    ((detectHardware h).1.details.nvidia = false → (detectHardware h).1.details.strix = false →
      (detectHardware h).1.details.rocm = false → (detectHardware h).1.detected = "cpu") ∧
    ((detectHardware h).1.confidence =
      (if (detectHardware h).1.details.nvidia = true ∧
          jsTruthyOpt ((detectHardware h).1.details.cudaVersion) = false
        then "medium" else "high")) := by
  unfold detectHardware
  simp only [harm, Bool.false_eq_true, if_false]
  split
  case isTrue hn =>
    simp only [hn]
    refine ⟨by simp, by simp, by simp, by simp, ?_⟩
    split
    case isTrue hc =>
      cases hb : jsTruthyOpt (some (removeFirstOcc (jsTrim (execCommand h none cudaVerCmd)) ",")) <;>
        simp [hb]
    case isFalse hc => simp [jsTruthyOpt]
  case isFalse hn =>
    rw [Bool.not_eq_true] at hn
    simp only [hn]
    split
    case isTrue hs =>
      simp only [hs]
      exact ⟨by simp, by simp, by simp, by simp, by simp⟩
    case isFalse hs =>
      rw [Bool.not_eq_true] at hs
      simp only [hs]
      split
      case isTrue hr =>
        simp only [hr]
        exact ⟨by simp, by simp, by simp, by simp, by simp⟩
      case isFalse hr =>
        rw [Bool.not_eq_true] at hr
        simp only [hr]
        exact ⟨by simp, by simp, by simp, by simp, by simp⟩

/-- C8 witness: an NVIDIA machine with a retrieved toolkit version wins
with `cuda` at high confidence. -/
theorem claimC8_witness :
    (detectHardware exC8).1.detected = "cuda" ∧
    (detectHardware exC8).1.confidence = "high" := by
  have h := claimC8 exC8 (by decide)
  refine ⟨h.1 (by decide), ?_⟩
  rw [h.2.2.2.2]
  have hc : jsTruthyOpt ((detectHardware exC8).1.details.cudaVersion) = true := by decide
  rw [hc]
  simp

/-- C4 counterexample: a connection-refused error makes
`monitorRemoteServices` *reject* with the error rather than resolve a
structured `{success:false, error}` result. -/
theorem claimC4_counterexample :
    monitorRemoteServices cfgMon (.connError errC4) =
      .error "connect ECONNREFUSED 10.0.0.5:22" := by
  decide

/-- C4 (amended): `testSetup` and `deploy` resolve structured
`{success:false, error}` results for connection-level *error events*
(unreachable host, auth failure, refused) and never raise there — but
expiry of their own overall timers rejects with the timeout error, and
`monitorRemoteServices` rejects on every connection-level failure
(error event and timeout alike). -/
theorem claimC4_amended :
    (∀ err : SshErr, testSetup (.connError err) =
      .ok { success := false, hardware := none, error := some err.message }) ∧
    (testSetup .timeoutFirst = .error "Connection timeout after 30 seconds") ∧
    (∀ (cfg : DeployConfig) (err : SshErr), (deploy cfg (.connError err)).1 =
      .ok { success := false, error := some (deployConnErrMsg err) }) ∧
    (∀ cfg : DeployConfig, (deploy cfg .timeoutFirst).1 =
      .error "Deployment timeout after 5 minutes") ∧
    (∀ (cfg : DeployConfig) (err : SshErr),
      monitorRemoteServices cfg (.connError err) = .error err.message) ∧
    (∀ cfg : DeployConfig,
      monitorRemoteServices cfg .timeoutFirst = .error "Monitor timeout after 15 seconds") :=
  ⟨fun _ => rfl, rfl, fun _ _ => rfl, fun _ => rfl, fun _ _ => rfl, fun _ => rfl⟩

/-! ## Lemmas about the `validateServiceConfiguration` traversal -/

theorem stepShape_refl (s : VState) : StepShape s s :=
  ⟨rfl, ⟨[], rfl⟩, ⟨[], by simp⟩⟩

theorem stepShape_trans {s₁ s₂ s₃ : VState} (h₁ : StepShape s₁ s₂) (h₂ : StepShape s₂ s₃) :
    StepShape s₁ s₃ := by
  obtain ⟨ht, ⟨n₁, hv⟩, ⟨t₁, he, hc₁⟩⟩ := h₁
  obtain ⟨ht', ⟨n₂, hv'⟩, ⟨t₂, he', hc₂⟩⟩ := h₂
  refine ⟨ht'.trans ht, ⟨n₂ ++ n₁, by rw [hv', hv, List.append_assoc]⟩,
    ⟨t₁ ++ t₂, by rw [he', he, List.append_assoc], ?_⟩⟩
  intro e he''
  rcases List.mem_append.1 he'' with h | h
  · exact hc₁ e h
  · exact hc₂ e h

theorem visitEach_shape {step : String → VState → Except VState VState}
    (hstep : ∀ node s s', step node s = .ok s' → StepShape s s') :
    ∀ (ns : List String) (s s' : VState), visitEach step ns s = .ok s' → StepShape s s' := by
  intro ns
  induction ns with
  | nil => intro s s' h; cases h; exact stepShape_refl _
  | cons node rest ih =>
    intro s s' h
    unfold visitEach at h
    rcases hv : step node s with e | s₁
    · rw [hv] at h; cases h
    · rw [hv] at h
      exact stepShape_trans (hstep _ _ _ hv) (ih _ _ h)

theorem visit_shape (svcs : List (String × List String)) :
    ∀ (fuel : Nat) (node : String) (s s' : VState),
      visit svcs fuel node s = .ok s' → StepShape s s' := by
  intro fuel
  induction fuel with
  | zero => intro node s s' h; cases h
  | succ fuel ih =>
    intro node s s' h
    unfold visit at h
    by_cases htemp : s.temp.contains node = true
    · rw [if_pos htemp] at h
      cases h
      exact ⟨rfl, ⟨[], rfl⟩, ⟨[cycleMsg node], rfl, by simp⟩⟩
    · rw [if_neg htemp] at h
      by_cases hvis : s.visited.contains node = true
      · rw [if_pos hvis] at h; cases h; exact stepShape_refl _
      · rw [if_neg hvis] at h
        rcases hl : svcs.lookup node with _ | ds
        · rw [hl] at h; simp only at h; cases h
        · rw [hl] at h
          simp only at h
          rcases hsub : visitEach (visit svcs fuel) ds { s with temp := node :: s.temp } with e | s₂
          · rw [hsub] at h; cases h
          · rw [hsub] at h
            cases h
            obtain ⟨ht, ⟨new, hv⟩, ⟨tl, he, hc⟩⟩ := visitEach_shape ih ds _ _ hsub
            refine ⟨?_, ⟨node :: new, by simp [hv]⟩, ⟨tl, he, hc⟩⟩
            simp only [ht]
            simp [List.erase_cons_head]

theorem lookup_mem {svcs : List (String × List String)} {k : String} {ds : List String}
    (h : svcs.lookup k = some ds) : (k, ds) ∈ svcs := by
  induction svcs with
  | nil => cases h
  | cons p rest ih =>
    rw [List.lookup] at h
    cases hk : (k == p.1) with
    | true =>
      rw [hk] at h
      simp only at h
      cases h
      have hk' : k = p.1 := eq_of_beq hk
      subst hk'
      exact List.mem_cons_self _ _
    | false =>
      rw [hk] at h
      simp only at h
      exact List.mem_cons_of_mem _ (ih h)

theorem lookup_mem_keys {svcs : List (String × List String)} {k : String} {ds : List String}
    (h : svcs.lookup k = some ds) : k ∈ svcs.map (fun p => p.1) :=
  List.mem_map.2 ⟨(k, ds), lookup_mem h, rfl⟩


theorem filter_length_lt {keys temp : List String} {node : String}
    (hk : node ∈ keys) (ht : node ∉ temp) :
    (keys.filter (fun k => !((node :: temp).contains k))).length <
      (keys.filter (fun k => !(temp.contains k))).length := by
  induction keys with
  | nil => cases hk
  | cons a keys ih =>
    have hmono : ((keys.filter (fun k => !((node :: temp).contains k))).length ≤
        (keys.filter (fun k => !(temp.contains k))).length) := by
      apply List.Sublist.length_le
      apply List.monotone_filter_right
      intro x hx
      have hx' : x ∉ (node :: temp) := by simpa using hx
      have hxt : x ∉ temp := fun hm => hx' (List.mem_cons_of_mem _ hm)
      simpa using hxt
    rcases List.mem_cons.1 hk with rfl | ha
    · have h1 : (fun k => !(temp.contains k)) node = true := by simp [ht]
      have h2 : ¬ ((fun k => !((node :: temp).contains k)) node = true) := by simp
      rw [@List.filter_cons_of_pos _ (fun k => !(temp.contains k)) node keys h1,
        @List.filter_cons_of_neg _ (fun k => !((node :: temp).contains k)) node keys h2]
      simp only [List.length_cons]
      omega
    · by_cases hcase : (a ∈ temp)
      · have h1 : ¬ ((fun k => !(temp.contains k)) a = true) := by simp [hcase]
        have h2 : ¬ ((fun k => !((node :: temp).contains k)) a = true) := by simp [hcase]
        rw [@List.filter_cons_of_neg _ (fun k => !(temp.contains k)) a keys h1,
          @List.filter_cons_of_neg _ (fun k => !((node :: temp).contains k)) a keys h2]
        exact ih ha
      · have h1 : (fun k => !(temp.contains k)) a = true := by simp [hcase]
        rw [@List.filter_cons_of_pos _ (fun k => !(temp.contains k)) a keys h1]
        by_cases hcase2 : (a = node)
        · subst hcase2
          have h2 : ¬ ((fun k => !((a :: temp).contains k)) a = true) := by simp
          rw [@List.filter_cons_of_neg _ (fun k => !((a :: temp).contains k)) a keys h2]
          have := ih ha
          simp only [List.length_cons]
          omega
        · have h2 : (fun k => !((node :: temp).contains k)) a = true := by
            simp [hcase, hcase2]
          rw [@List.filter_cons_of_pos _ (fun k => !((node :: temp).contains k)) a keys h2]
          have := ih ha
          simp only [List.length_cons]
          omega

theorem kRem_push {svcs : List (String × List String)} {s : VState} {node : String}
    (hk : node ∈ svcs.map (fun p => p.1)) (ht : ¬ s.temp.contains node = true) :
    kRem svcs { s with temp := node :: s.temp } < kRem svcs s := by
  unfold kRem
  simp only
  exact filter_length_lt hk (by simpa using ht)

theorem kRem_congr {svcs : List (String × List String)} {s s' : VState}
    (h : s'.temp = s.temp) : kRem svcs s' = kRem svcs s := by
  unfold kRem
  rw [h]

theorem mem_keys_lookup_isSome {svcs : List (String × List String)} {k : String}
    (h : k ∈ svcs.map (fun p => p.1)) : (svcs.lookup k).isSome := by
  induction svcs with
  | nil => cases h
  | cons p rest ih =>
    rw [List.lookup]
    cases hk : (k == p.1) with
    | true => simp
    | false =>
      simp only
      apply ih
      rcases List.mem_cons.1 h with h1 | h1
      · exfalso
        rw [h1] at hk
        simp at hk
      · exact h1

theorem visitEach_no_abort (svcs : List (String × List String)) (fuel : Nat)
    (hvisit : ∀ node s, (svcs.lookup node).isSome → kRem svcs s + 1 ≤ fuel →
      ∃ s', visit svcs fuel node s = .ok s') :
    ∀ (ds : List String) (s : VState), (∀ d ∈ ds, (svcs.lookup d).isSome) →
      kRem svcs s + 1 ≤ fuel →
      ∃ s', visitEach (visit svcs fuel) ds s = .ok s' := by
  intro ds
  induction ds with
  | nil => intro s _ _; exact ⟨s, rfl⟩
  | cons d rest ih =>
    intro s hds hb
    obtain ⟨s₁, h₁⟩ := hvisit d s (hds d (List.mem_cons_self _ _)) hb
    have hsh := visit_shape svcs fuel d s s₁ h₁
    have heq : kRem svcs s₁ = kRem svcs s := kRem_congr hsh.1
    obtain ⟨s', h'⟩ := ih s₁ (fun x hx => hds x (List.mem_cons_of_mem _ hx)) (by omega)
    refine ⟨s', ?_⟩
    unfold visitEach
    rw [h₁]
    exact h'

theorem visit_no_abort (svcs : List (String × List String)) (hwf : WellFormedDeps svcs) :
    ∀ (fuel : Nat) (node : String) (s : VState), (svcs.lookup node).isSome →
      kRem svcs s + 1 ≤ fuel → ∃ s', visit svcs fuel node s = .ok s' := by
  intro fuel
  induction fuel with
  | zero => intro node s _ hb; omega
  | succ fuel ih =>
    intro node s hnode hb
    unfold visit
    by_cases htemp : s.temp.contains node = true
    · rw [if_pos htemp]; exact ⟨_, rfl⟩
    · rw [if_neg htemp]
      by_cases hvis : s.visited.contains node = true
      · rw [if_pos hvis]; exact ⟨_, rfl⟩
      · rw [if_neg hvis]
        rcases hl : svcs.lookup node with _ | ds
        · rw [hl] at hnode; cases hnode
        · have hks : node ∈ svcs.map (fun p => p.1) := lookup_mem_keys hl
          have hdec : kRem svcs { s with temp := node :: s.temp } + 1 ≤ fuel := by
            have := kRem_push (s := s) hks htemp
            omega
          have hdeps : ∀ d ∈ ds, (svcs.lookup d).isSome :=
            hwf (node, ds) (lookup_mem hl)
          obtain ⟨s₂, hs₂⟩ := visitEach_no_abort svcs fuel ih ds _ hdeps hdec
          simp only
          rw [hs₂]
          exact ⟨_, rfl⟩

theorem kRem_init (svcs : List (String × List String)) :
    kRem svcs ⟨[], [], []⟩ = svcs.length := by
  unfold kRem
  simp

theorem validate_run_ok (svcs : List (String × List String)) (hwf : WellFormedDeps svcs) :
    ∃ s_f, visitEach (visit svcs (svcs.length + 2)) (svcs.map (fun p => p.1))
      ⟨[], [], []⟩ = .ok s_f := by
  apply visitEach_no_abort svcs (svcs.length + 2)
    (visit_no_abort svcs hwf (svcs.length + 2))
  · intro k hk
    exact mem_keys_lookup_isSome hk
  · rw [kRem_init]
    omega

theorem visitEach_clean (svcs : List (String × List String)) (fuel : Nat)
    (hvc : ∀ node s s', visit svcs fuel node s = .ok s' → s'.errors = s.errors →
      TopoList svcs s.visited → TopoList svcs s'.visited ∧ node ∈ s'.visited) :
    ∀ (ds : List String) (s s' : VState), visitEach (visit svcs fuel) ds s = .ok s' →
      s'.errors = s.errors → TopoList svcs s.visited →
      TopoList svcs s'.visited ∧ ∀ d ∈ ds, d ∈ s'.visited := by
  intro ds
  induction ds with
  | nil =>
    intro s s' h _ htopo
    cases h
    exact ⟨htopo, by simp⟩
  | cons d rest ih =>
    intro s s' h hcl htopo
    unfold visitEach at h
    rcases hv : visit svcs fuel d s with e | s₁
    · rw [hv] at h; cases h
    · rw [hv] at h
      obtain ⟨tl₁, he₁, _⟩ := (visit_shape svcs fuel d s s₁ hv).2.2
      have hsh₂ := visitEach_shape (fun n a b => visit_shape svcs fuel n a b) rest s₁ s' h
      obtain ⟨tl₂, he₂, _⟩ := hsh₂.2.2
      have h0 : s.errors = (s.errors ++ tl₁) ++ tl₂ := by
        rw [← he₁, ← he₂, hcl]
      have hlen := congrArg List.length h0
      simp only [List.length_append] at hlen
      have htl₁ : tl₁ = [] := List.eq_nil_of_length_eq_zero (by omega)
      have htl₂ : tl₂ = [] := List.eq_nil_of_length_eq_zero (by omega)
      have hcl₁ : s₁.errors = s.errors := by rw [he₁, htl₁]; simp
      have hcl₂ : s'.errors = s₁.errors := by rw [he₂, htl₂]; simp
      obtain ⟨htopo₁, hd₁⟩ := hvc d s s₁ hv hcl₁ htopo
      obtain ⟨htopo', hrest⟩ := ih s₁ s' h hcl₂ htopo₁
      refine ⟨htopo', ?_⟩
      intro x hx
      rcases List.mem_cons.1 hx with rfl | hx'
      · obtain ⟨new, hv'⟩ := hsh₂.2.1
        rw [hv']
        exact List.mem_append_right _ hd₁
      · exact hrest x hx'

theorem visit_clean (svcs : List (String × List String)) :
    ∀ (fuel : Nat) (node : String) (s s' : VState), visit svcs fuel node s = .ok s' →
      s'.errors = s.errors → TopoList svcs s.visited →
      TopoList svcs s'.visited ∧ node ∈ s'.visited := by
  intro fuel
  induction fuel with
  | zero => intro node s s' h; cases h
  | succ fuel ih =>
    intro node s s' h hcl htopo
    unfold visit at h
    by_cases htemp : s.temp.contains node = true
    · rw [if_pos htemp] at h
      cases h
      simp only at hcl
      have := congrArg List.length hcl
      simp at this
    · rw [if_neg htemp] at h
      by_cases hvis : s.visited.contains node = true
      · rw [if_pos hvis] at h
        cases h
        exact ⟨htopo, by simpa using hvis⟩
      · rw [if_neg hvis] at h
        rcases hl : svcs.lookup node with _ | ds
        · rw [hl] at h; simp only at h; cases h
        · rw [hl] at h
          simp only at h
          rcases hsub : visitEach (visit svcs fuel) ds { s with temp := node :: s.temp }
            with e | s₂
          · rw [hsub] at h; cases h
          · rw [hsub] at h
            cases h
            simp only at hcl
            obtain ⟨htopo₂, hds⟩ := visitEach_clean svcs fuel ih ds _ _ hsub hcl htopo
            refine ⟨⟨?_, htopo₂⟩, List.mem_cons_self _ _⟩
            intro v hE
            obtain ⟨ds', hl', hv'⟩ := hE
            rw [hl] at hl'
            cases hl'
            exact hds v hv'


theorem lastD_cons (a c : String) (l : List String) : lastD a (c :: l) = lastD c l := rfl

theorem lastD_concat (a b : String) : ∀ (l : List String), lastD a (l ++ [b]) = b := by
  intro l
  induction l generalizing a with
  | nil => rfl
  | cons x xs ih => exact ih x

theorem chain_snoc {R : String → String → Prop} :
    ∀ (l : List String) (a b : String), List.Chain R a l → R (lastD a l) b →
      List.Chain R a (l ++ [b]) := by
  intro l
  induction l with
  | nil =>
    intro a b _ hr
    exact List.Chain.cons hr List.Chain.nil
  | cons c l' ih =>
    intro a b hch hr
    obtain ⟨hac, hcl⟩ := List.chain_cons.1 hch
    rw [List.cons_append]
    exact List.Chain.cons hac (ih c b hcl (by rwa [lastD_cons] at hr))

theorem path_to_head (svcs : List (String × List String)) :
    ∀ (temp : List String) (node : String),
      List.Chain' (fun a b => Edge svcs b a) temp → node ∈ temp →
      ∃ l, List.Chain (Edge svcs) node l ∧ ∀ p, temp.head? = some p → lastD node l = p := by
  intro temp
  induction temp with
  | nil => intro node _ h; cases h
  | cons t ts ih =>
    intro node hch hmem
    rcases List.mem_cons.1 hmem with rfl | hmem'
    · exact ⟨[], List.Chain.nil, fun p hp => by cases hp; rfl⟩
    · rcases ts with _ | ⟨t₂, ts'⟩
      · cases hmem'
      · have hcc := List.chain'_cons.1 hch
        obtain ⟨l, hchain, hlast⟩ := ih node hcc.2 hmem'
        refine ⟨l ++ [t], chain_snoc l node t hchain ?_, fun p hp => ?_⟩
        · rw [hlast t₂ rfl]
          exact hcc.1
        · cases hp
          exact lastD_concat node t l

theorem temp_cycle (svcs : List (String × List String)) {temp : List String} {node p : String}
    (hch : List.Chain' (fun a b => Edge svcs b a) temp) (hhd : temp.head? = some p)
    (hmem : node ∈ temp) (hE : Edge svcs p node) : HasCycle svcs := by
  obtain ⟨l, hchain, hlast⟩ := path_to_head svcs temp node hch hmem
  refine ⟨node, l ++ [node], by simp, ?_, ?_⟩
  · apply chain_snoc _ _ _ hchain
    rw [hlast p hhd]
    exact hE
  · rw [List.getLast?_concat]

theorem visitEach_nocycle (svcs : List (String × List String)) (fuel : Nat)
    (hvn : ∀ node s s', visit svcs fuel node s = .ok s' →
      List.Chain' (fun a b => Edge svcs b a) s.temp →
      (∀ p, s.temp.head? = some p → Edge svcs p node) → s'.errors = s.errors) :
    ∀ (ds : List String) (s s' : VState), visitEach (visit svcs fuel) ds s = .ok s' →
      List.Chain' (fun a b => Edge svcs b a) s.temp →
      (∀ p, s.temp.head? = some p → ∀ d ∈ ds, Edge svcs p d) → s'.errors = s.errors := by
  intro ds
  induction ds with
  | nil => intro s s' h _ _; cases h; rfl
  | cons d rest ih =>
    intro s s' h hch hpar
    unfold visitEach at h
    rcases hv : visit svcs fuel d s with e | s₁
    · rw [hv] at h; cases h
    · rw [hv] at h
      have he₁ : s₁.errors = s.errors :=
        hvn d s s₁ hv hch (fun p hp => hpar p hp d (List.mem_cons_self _ _))
      have htmp : s₁.temp = s.temp := (visit_shape svcs fuel d s s₁ hv).1
      have he₂ : s'.errors = s₁.errors := by
        apply ih s₁ s' h
        · rw [htmp]; exact hch
        · intro p hp x hx
          rw [htmp] at hp
          exact hpar p hp x (List.mem_cons_of_mem _ hx)
      rw [he₂, he₁]

theorem visit_nocycle (svcs : List (String × List String)) (hnc : ¬ HasCycle svcs) :
    ∀ (fuel : Nat) (node : String) (s s' : VState), visit svcs fuel node s = .ok s' →
      List.Chain' (fun a b => Edge svcs b a) s.temp →
      (∀ p, s.temp.head? = some p → Edge svcs p node) → s'.errors = s.errors := by
  intro fuel
  induction fuel with
  | zero => intro node s s' h; cases h
  | succ fuel ih =>
    intro node s s' h hch hpar
    unfold visit at h
    by_cases htemp : s.temp.contains node = true
    · exfalso
      have hmem : node ∈ s.temp := by simpa using htemp
      rcases hp : s.temp.head? with _ | p
      · rw [List.head?_eq_none_iff] at hp
        rw [hp] at hmem
        cases hmem
      · exact hnc (temp_cycle svcs hch hp hmem (hpar p hp))
    · rw [if_neg htemp] at h
      by_cases hvis : s.visited.contains node = true
      · rw [if_pos hvis] at h; cases h; rfl
      · rw [if_neg hvis] at h
        rcases hl : svcs.lookup node with _ | ds
        · rw [hl] at h; simp only at h; cases h
        · rw [hl] at h
          simp only at h
          rcases hsub : visitEach (visit svcs fuel) ds { s with temp := node :: s.temp }
            with e | s₂
          · rw [hsub] at h; cases h
          · rw [hsub] at h
            cases h
            simp only
            have hch' : List.Chain' (fun a b => Edge svcs b a) (node :: s.temp) := by
              rcases hst : s.temp with _ | ⟨p, t⟩
              · simp
              · rw [hst] at hch hpar
                exact List.chain'_cons.2 ⟨hpar p rfl, hch⟩
            have hpar' : ∀ p, (node :: s.temp).head? = some p → ∀ d ∈ ds, Edge svcs p d := by
              intro p hp d hd
              cases hp
              exact ⟨ds, hl, hd⟩
            exact visitEach_nocycle svcs fuel ih ds
              { s with temp := node :: s.temp } s₂ hsub hch' hpar'

theorem topo_closed (svcs : List (String × List String)) :
    ∀ (vis : List String), TopoList svcs vis →
      ∀ a b, a ∈ vis → Edge svcs a b → b ∈ vis := by
  intro vis
  induction vis with
  | nil => intro _ a b h; cases h
  | cons v rest ih =>
    intro htopo a b ha hE
    obtain ⟨hd, ht⟩ := htopo
    rcases List.mem_cons.1 ha with rfl | ha'
    · exact List.mem_cons_of_mem _ (hd b hE)
    · exact List.mem_cons_of_mem _ (ih ht a b ha' hE)

theorem chain_stays (svcs : List (String × List String)) {S : List String}
    (hclosed : ∀ a b, a ∈ S → Edge svcs a b → b ∈ S) :
    ∀ (l : List String) (w : String), w ∈ S → List.Chain (Edge svcs) w l →
      ∀ x ∈ l, x ∈ S := by
  intro l
  induction l with
  | nil => intro w _ _ x hx; cases hx
  | cons y l' ih =>
    intro w hw hch x hx
    obtain ⟨hwy, hch'⟩ := List.chain_cons.1 hch
    have hy : y ∈ S := hclosed w y hw hwy
    rcases List.mem_cons.1 hx with rfl | hx'
    · exact hy
    · exact ih y hy hch' x hx'

theorem topo_no_cycle (svcs : List (String × List String)) :
    ∀ (vis : List String), TopoList svcs vis → ∀ u, u ∈ vis →
      ∀ l, l ≠ [] → List.Chain (Edge svcs) u l → l.getLast? = some u → False := by
  intro vis
  induction vis with
  | nil => intro _ u hu; cases hu
  | cons v rest ih =>
    intro htopo u hu l hne hch hlast
    obtain ⟨hd, ht⟩ := htopo
    rcases List.mem_cons.1 hu with rfl | hu'
    · rcases l with _ | ⟨w, l'⟩
      · exact hne rfl
      · obtain ⟨hvw, hch'⟩ := List.chain_cons.1 hch
        have hw : w ∈ rest := hd w hvw
        have hclosed := topo_closed svcs rest ht
        have hu_rest : u ∈ rest := by
          have hu_mem : u ∈ w :: l' := List.mem_of_mem_getLast? (by rw [hlast]; rfl)
          rcases List.mem_cons.1 hu_mem with rfl | hu_mem'
          · exact hw
          · exact chain_stays svcs hclosed l' w hw hch' u hu_mem'
        exact ih ht u hu_rest (w :: l') hne hch hlast
    · exact ih ht u hu' l hne hch hlast

theorem missingDepErrors_eq_nil {svcs : List (String × List String)}
    (hwf : WellFormedDeps svcs) : missingDepErrors svcs = [] := by
  unfold missingDepErrors
  rw [List.flatten_eq_nil_iff]
  intro l hl
  obtain ⟨p, hp, rfl⟩ := List.mem_map.1 hl
  rw [List.map_eq_nil_iff]
  rw [List.filter_eq_nil_iff]
  intro d hd
  have := hwf p hp d hd
  simp only [Option.isNone]
  rcases hopt : svcs.lookup d with _ | ds
  · rw [hopt] at this; cases this
  · simp

/-- C5 (amended): for a service map in which every declared dependency
resolves to an enabled service, `validateServiceConfiguration` returns
at least one circular-dependency error exactly when the dependency graph
has a cycle, and returns the empty error list when it is acyclic.  (The
original claim fails when a dependency is missing: the traversal then
aborts on the thrown `TypeError` and a coexisting cycle can go
unreported — see the counterexample.) -/
theorem claimC5_amended (svcs : List (String × List String)) (hwf : WellFormedDeps svcs) :
    (HasCycle svcs → ∃ n, cycleMsg n ∈ validateServiceConfiguration svcs) ∧
    (¬ HasCycle svcs → validateServiceConfiguration svcs = []) := by
  obtain ⟨sf, hrun⟩ := validate_run_ok svcs hwf
  have hvalidate : validateServiceConfiguration svcs = sf.errors := by
    unfold validateServiceConfiguration
    simp only
    rw [hrun, missingDepErrors_eq_nil hwf]
    simp
  constructor
  · intro hcyc
    by_contra hno
    push_neg at hno
    have hshape := visitEach_shape (fun n a b => visit_shape svcs (svcs.length + 2) n a b)
      _ _ _ hrun
    obtain ⟨tl, he, hc⟩ := hshape.2.2
    have herr_nil : sf.errors = [] := by
      rcases hemp : sf.errors with _ | ⟨e, es⟩
      · rfl
      · exfalso
        have he_mem : e ∈ sf.errors := by rw [hemp]; exact List.mem_cons_self _ _
        have he_tl : e ∈ tl := by
          rw [he] at he_mem
          simpa using he_mem
        obtain ⟨n, rfl⟩ := hc e he_tl
        exact hno n (by rw [hvalidate]; exact he_mem)
    obtain ⟨htopo, hkeys⟩ := visitEach_clean svcs (svcs.length + 2)
      (visit_clean svcs (svcs.length + 2)) _ _ _ hrun (by rw [herr_nil]) trivial
    obtain ⟨u, l, hne, hch, hlast⟩ := hcyc
    rcases l with _ | ⟨w, l'⟩
    · exact hne rfl
    · obtain ⟨hEuw, _⟩ := List.chain_cons.1 hch
      obtain ⟨ds, hl, _⟩ := hEuw
      have hu_vis : u ∈ sf.visited := hkeys u (lookup_mem_keys hl)
      exact topo_no_cycle svcs sf.visited htopo u hu_vis (w :: l') hne hch hlast
  · intro hnc
    have herr : sf.errors = [] :=
      visitEach_nocycle svcs (svcs.length + 2) (visit_nocycle svcs hnc (svcs.length + 2))
        _ _ _ hrun trivial (fun p hp => by cases hp)
    rw [hvalidate, herr]


/-- C5 witness: the amended theorem applied to the concrete well-formed
two-cycle map `svcsW`. -/
theorem claimC5_witness :
    ∃ n, cycleMsg n ∈ validateServiceConfiguration svcsW :=
  (claimC5_amended svcsW (by unfold WellFormedDeps; decide)).1
    ⟨"a", ["b", "a"], by simp,
      List.Chain.cons ⟨["b"], rfl, by decide⟩
        (List.Chain.cons ⟨["a"], rfl, by decide⟩ List.Chain.nil), rfl⟩


/-- C5 counterexample: `svcsC5` has the cycle a ⇄ b among its (enabled)
services, yet `validateServiceConfiguration` reports no circular-
dependency error at all: visiting the missing dependency `x` throws,
the catch block records only the generic `tyErrMsg`, and the cycle is
never reached.  The missing-dependency pass still reports `x`, so the
output is exactly `[tyErrMsg, missingMsg "a" "x"]`. -/
theorem claimC5_counterexample :
    Edge svcsC5 "a" "b" ∧ Edge svcsC5 "b" "a" ∧
    validateServiceConfiguration svcsC5 = [tyErrMsg, missingMsg "a" "x"] ∧
    (∀ n ∈ ["a", "b", "x"], cycleMsg n ∉ validateServiceConfiguration svcsC5) := by
  refine ⟨⟨["x", "b"], rfl, by decide⟩, ⟨["a"], rfl, by decide⟩, by decide, by decide⟩
